import Mathlib

/-!
Verification development for the fair_champion repository.

The Python sources are shallowly embedded: pure string manipulation
(DOI extraction by the regex `10\.\d{4,9}/[-._;()/:A-Z0-9]+` with
re.I, repository identification by case-insensitive substring
patterns, field merging with the `or` operator, sorting/truncation of
extracted sets) is translated into executable Lean functions over
`String`/`List Char`; network calls and the regex-driven auxiliary
extractors whose internals no claim depends on (file-name, format and
license extraction, the Mendeley and DataCite API calls) are supplied
by an explicit environment record, and Python exceptions are modelled
with `Except` or with an explicit interruption point.  Python string
operations (`str.lower`, `str.strip`, `sorted`, `', '.join`,
`str.split`) are modelled on ASCII data, which is the only data the
claims and witnesses exercise; the code-point-wise definitions below
agree with CPython on ASCII input.
-/

/-- Whitespace characters of Python's `\s` class and `str.strip`,
restricted to ASCII. -/
def isSpaceChar (c : Char) : Bool :=
  c == ' ' || c == '\t' || c == '\n' || c == '\r' || c == '\x0b' || c == '\x0c'

/-- Code-point lexicographic order on character lists, as used by
Python's `<` on `str`. -/
def lexLt : List Char → List Char → Bool
  | [], [] => false
  | [], _ :: _ => true
  | _ :: _, [] => false
  | a :: as, b :: bs =>
    if a.toNat < b.toNat then true
    else if b.toNat < a.toNat then false
    else lexLt as bs

/-- Python's `a <= b` on strings (code-point lexicographic). -/
def strLeB (a b : String) : Bool := ! lexLt b.data a.data

/-- Python's `str.lower`, restricted to ASCII case mapping. -/
def lowerStr (s : String) : String := String.mk (s.data.map Char.toLower)

/-- Insert a string into an already ascending list, keeping it ascending. -/
def insertSorted (x : String) : List String → List String
  | [] => [x]
  | y :: ys => if strLeB x y then x :: y :: ys else y :: insertSorted x ys

/-- Ascending sort by code-point order; extensionally Python's
`sorted` on a list of distinct strings. -/
def sortAsc (l : List String) : List String := l.foldr insertSorted []

/-- Python's `sorted(set(l))`: deduplicate, then sort ascending. -/
def sortedSet (l : List String) : List String := sortAsc l.dedup

/-- Python's `sep.join(parts)`. -/
def pyJoin (sep : String) : List String → String
  | [] => ""
  | [x] => x
  | x :: y :: t => x ++ sep ++ pyJoin sep (y :: t)

/-- Whether the first list is a prefix of the second (Boolean). -/
def isPrefixList : List Char → List Char → Bool
  | [], _ => true
  | _ :: _, [] => false
  | a :: as, b :: bs => a == b && isPrefixList as bs

/-- Whether `nee` occurs as a contiguous sublist of the argument. -/
def containsList (nee : List Char) : List Char → Bool
  | [] => nee.isEmpty
  | c :: cs => isPrefixList nee (c :: cs) || containsList nee cs

/-- Python's `nee in hay` substring test. -/
def containsStr (hay nee : String) : Bool := containsList nee.data hay.data

/-- Case-insensitive substring test, as `re.search` with `re.I` on a
literal pattern. -/
def containsCI (hay nee : String) : Bool := containsStr (lowerStr hay) (lowerStr nee)

/-- Python's `str.strip()` on ASCII whitespace. -/
def trimStr (s : String) : String :=
  String.mk (((s.data.dropWhile isSpaceChar).reverse.dropWhile isSpaceChar).reverse)

/-- Helper for `pySplit`: fuel-driven scan; the fuel is initialised to
the string length plus one, which a straightforward count shows is
never exhausted, so the first arm is unreachable. -/
def pySplitAux (sep : List Char) : Nat → List Char → List Char → List (List Char)
  | 0, acc, rest => [acc.reverse ++ rest]
  | _ + 1, acc, [] => [acc.reverse]
  | fuel + 1, acc, c :: cs =>
    if isPrefixList sep (c :: cs) then
      acc.reverse :: pySplitAux sep fuel [] ((c :: cs).drop sep.length)
    else
      pySplitAux sep fuel (c :: acc) cs

/-- Python's `s.split(sep)` for a non-empty separator. -/
def pySplit (sep s : String) : List String :=
  (pySplitAux sep.data (s.data.length + 1) [] s.data).map String.mk

/-- Characters admitted by the tail class `[-._;()/:A-Z0-9]` of the
DOI regex under `re.I` (ASCII letters of both cases, digits, and the
listed punctuation). -/
def isDoiTailChar (c : Char) : Bool :=
  c.isDigit || c.isAlpha || c == '-' || c == '.' || c == '_' || c == ';' ||
    c == '(' || c == ')' || c == '/' || c == ':'

/-- Attempt to match the DOI regex `10\.\d{4,9}/[-._;()/:A-Z0-9]+`
(with `re.I`) at the head of the list.  The digit run is maximal
(backtracking cannot shorten it, since a shorter run would be followed
by a digit rather than `/`), the tail run is maximal (greedy `+`), and
a match requires 4–9 digits followed by `/` and at least one tail
character.  Returns the matched characters and the remainder. -/
def doiMatchAt : List Char → Option (List Char × List Char)
  | '1' :: '0' :: '.' :: rest =>
    let ds := rest.takeWhile Char.isDigit
    let r1 := rest.dropWhile Char.isDigit
    if 4 ≤ ds.length && ds.length ≤ 9 then
      match r1 with
      | '/' :: r2 =>
        let tl := r2.takeWhile isDoiTailChar
        let r3 := r2.dropWhile isDoiTailChar
        if tl.isEmpty then none
        else some ('1' :: '0' :: '.' :: (ds ++ '/' :: tl), r3)
      | _ => none
    else none
  | _ => none

/-- Helper for `doiFindAll`: left-to-right, non-overlapping scan, as
`re.findall`; fuel is initialised to the list length, and every
recursive call strictly consumes input, so the semantics is the
unbounded scan. -/
def doiFindAllAux : Nat → List Char → List String
  | 0, _ => []
  | _ + 1, [] => []
  | fuel + 1, c :: cs =>
    match doiMatchAt (c :: cs) with
    | some (m, rest) => String.mk m :: doiFindAllAux fuel rest
    | none => doiFindAllAux fuel cs

/-- All matches of the DOI regex in the text, in order, as
`re.findall(r'10\.\d{4,9}/[-._;()/:A-Z0-9]+', text, re.I)`. -/
def doiFindAll (l : List Char) : List String := doiFindAllAux l.length l

/-- Embeds `extract_dataset_doi` of data_fair_assessment.py: find all
DOI-pattern matches in the page text, discard those equal
case-insensitively to the paper DOI, return the first survivor or
the empty string. -/
def extract_dataset_doi (page_text paper_doi : String) : String :=
  ((doiFindAll page_text.data).filter fun d => lowerStr d != lowerStr paper_doi).headD ""

/-- Embeds `REPOSITORY_PATTERNS` of data_fair_assessment.py.  Each
regex value is an alternation of literals (dots escaped), so it is
recorded as the list of its literal alternatives; `re.search` with
`re.I` on such a pattern is exactly a case-insensitive substring test
against any alternative.  Insertion order of the Python dict is
preserved. -/
def REPOSITORY_PATTERNS : List (String × List String) := [
  ("Mendeley Data", ["mendeley.com", "data.mendeley"]),
  ("Zenodo", ["zenodo.org"]),
  ("Figshare", ["figshare.com"]),
  ("Dryad", ["datadryad.org"]),
  ("GitHub", ["github.com"]),
  ("ENA", ["ebi.ac.uk/ena", "www.ebi.ac.uk/ena"]),
  ("GenBank", ["ncbi.nlm.nih.gov/genbank"]),
  ("GEO", ["ncbi.nlm.nih.gov/geo"]),
  ("ArrayExpress", ["ebi.ac.uk/arrayexpress"]),
  ("PRIDE", ["ebi.ac.uk/pride"]),
  ("OSF", ["osf.io"])]

/-- The `for`-loop of `identify_repository`: return the label of the
first table entry whose pattern matches, else the empty string. -/
def firstRepoLabel : List (String × List String) → String → String
  | [], _ => ""
  | (label, pats) :: rest, url =>
    if pats.any (fun pat => containsCI url pat) then label
    else firstRepoLabel rest url

/-- Embeds `identify_repository` of data_fair_assessment.py. -/
def identify_repository (url : String) : String :=
  firstRepoLabel REPOSITORY_PATTERNS url

/-- Claim-side of C8: the label of the first entry of the ordered
table whose pattern matches the URL case-insensitively, via
`List.find?`. -/
def firstMatchingLabel (url : String) : String :=
  ((REPOSITORY_PATTERNS.find? fun p => p.2.any fun pat => containsCI url pat).map
    Prod.fst).getD ""

example : doiFindAll "see 10.5281/zenodo.123456 and 10.1000/paper1".data =
    ["10.5281/zenodo.123456", "10.1000/paper1"] := by decide

example : doiFindAll "Data: 10.5555/X.".data = ["10.5555/X."] := by decide

example : doiFindAll "10.123/x 10.1234567890/x 10.1234/".data = [] := by decide

example : doiFindAll "10.9910.1234/A876/XY".data = ["10.1234/A876/XY"] := by decide

example : extract_dataset_doi "see 10.5281/zenodo.123456 and 10.1000/paper1" "10.1000/PAPER1" =
    "10.5281/zenodo.123456" := by decide

example : identify_repository "https://zenodo.org/records/123" = "Zenodo" := by decide

example : identify_repository "https://example.com/x" = "" := by decide

example : identify_repository "https://DATA.MENDELEY.com/datasets/abc" = "Mendeley Data" := by decide

example : sortedSet ["b.csv", "a.csv", "b.csv"] = ["a.csv", "b.csv"] := by decide

example : pySplit ", " "a.csv, b.csv" = ["a.csv", "b.csv"] := by decide

example : pySplit ", " "" = [""] := by decide

example : trimStr "  a b  " = "a b" := by decide

/-- Outcome of the single `requests.get` call at the top of
`assess_dataset_url`: a timeout, another request exception (with its
message), or a successful response whose parsed visible text is
carried (the raw HTML is consumed only by the environment-modelled
extractors). -/
inductive FetchOutcome
  | timeout
  | reqError (msg : String)
  | ok (pageText : String)
deriving DecidableEq

/-- Point at which an unexpected (non-request) exception interrupts
the `try` block of `assess_dataset_url`, if any: before the effect of
the numbered step in question.  Each numbered step is atomic for this
purpose because its fallible computations all precede its
assignments, and its assignment/increment statements are adjacent and
infallible. -/
inductive InterruptAt
  | s1
  | s2
  | s3
  | s4
  | s5
  | s6
deriving DecidableEq

/-- Number of completed steps when the interruption fires. -/
def InterruptAt.stepsDone : InterruptAt → Nat
  | .s1 => 0
  | .s2 => 1
  | .s3 => 2
  | .s4 => 3
  | .s5 => 4
  | .s6 => 5

/-- Environment of one `assess_dataset_url` call: the fetch outcome
and the results of the auxiliary extractors, each of which swallows
its own errors in the source and therefore always yields a plain
value: `extract_mendeley_files` (empty list on any failure),
`extract_filenames_from_html`, `extract_formats_from_html` (sets of
matches of filename/format regexes; every element the source can
produce contains a file extension and is hence non-empty),
`query_datacite_api` (empty string on any failure) and
`extract_license` (empty string when no license pattern matches).
`interrupt` positions an unexpected exception, whose `str` is
`errMsg`. -/
structure AssessEnv where
  fetch : FetchOutcome
  mendeleyFiles : List String
  htmlFilenames : List String
  htmlFormats : List String
  dataciteFilename : String
  licenseInfo : String
  interrupt : Option InterruptAt
  errMsg : String
deriving DecidableEq

/-- The result dictionary of `assess_dataset_url`, with its exact
eight keys. -/
structure AssessResult where
  url : String
  dataset_doi : String
  file_name : String
  file_formats : String
  license : String
  repository : String
  accessibility : String
  fair_score : Nat
deriving DecidableEq

/-- The initial result dictionary built at the top of
`assess_dataset_url`. -/
def initResult (url : String) : AssessResult :=
  ⟨url, "", "", "", "", "", "Unknown", 0⟩

/-- Step 1 of `assess_dataset_url`: identify the repository and score
it when non-empty. -/
def assessStep1 (url : String) (r : AssessResult) : AssessResult :=
  let repo := identify_repository url
  let r := { r with repository := repo }
  if r.repository ≠ "" then { r with fair_score := r.fair_score + 1 } else r

/-- The set of file names step 2 collects: the Mendeley API list when
the repository is Mendeley Data and that list is non-empty, otherwise
the HTML-extracted set. -/
def step2Filenames (env : AssessEnv) (r : AssessResult) : List String :=
  if r.repository = "Mendeley Data" ∧ env.mendeleyFiles ≠ [] then env.mendeleyFiles
  else env.htmlFilenames

/-- Step 2 of `assess_dataset_url`: collect file names and display
the first `MAX_FILES_TO_DISPLAY = 10` of the sorted set. -/
def assessStep2 (env : AssessEnv) (r : AssessResult) : AssessResult :=
  let filenames := step2Filenames env r
  if filenames ≠ [] then
    { r with file_name := pyJoin ", " ((sortedSet filenames).take 10) }
  else r

/-- Step 3 of `assess_dataset_url`: extract the dataset DOI, score
it, and when no file name was found yet query DataCite for one. -/
def assessStep3 (page_text paper_doi : String) (env : AssessEnv) (r : AssessResult) :
    AssessResult :=
  let dd := extract_dataset_doi page_text paper_doi
  if dd ≠ "" then
    let r := { r with dataset_doi := dd, fair_score := r.fair_score + 1 }
    if r.file_name = "" then
      if env.dataciteFilename ≠ "" then { r with file_name := env.dataciteFilename } else r
    else r
  else r

/-- Python's `re.search(r'\.([a-z0-9]+)$', filename, re.I)` applied
in step 4: the maximal trailing run of ASCII alphanumerics, provided
it is non-empty and preceded by a dot; returned upper-cased. -/
def lastExt (filename : String) : Option String :=
  if (filename.data.reverse.takeWhile Char.isAlphanum) ≠ [] ∧
      (filename.data.reverse.dropWhile Char.isAlphanum).headD ' ' = '.' then
    some (String.mk ((filename.data.reverse.takeWhile Char.isAlphanum).reverse.map Char.toUpper))
  else none

/-- Extensions derived from the displayed `file_name` field in step 4
(only when the field is non-empty, splitting on the display
separator). -/
def extsFromFileName (fn : String) : List String :=
  if fn ≠ "" then (pySplit ", " fn).filterMap lastExt else []

/-- The format set of step 4: HTML/meta-extracted formats united with
extensions of displayed file names. -/
def step4Formats (env : AssessEnv) (r : AssessResult) : List String :=
  env.htmlFormats ++ extsFromFileName r.file_name

/-- Step 4 of `assess_dataset_url`: collect formats, display the
first `MAX_FORMATS_TO_DISPLAY = 10` of the sorted set, and score
their presence. -/
def assessStep4 (env : AssessEnv) (r : AssessResult) : AssessResult :=
  let formats := step4Formats env r
  if formats ≠ [] then
    { r with file_formats := pyJoin ", " ((sortedSet formats).take 10),
             fair_score := r.fair_score + 1 }
  else r

/-- Step 5 of `assess_dataset_url`: record and score the license when
one was extracted. -/
def assessStep5 (env : AssessEnv) (r : AssessResult) : AssessResult :=
  if env.licenseInfo ≠ "" then
    { r with license := env.licenseInfo, fair_score := r.fair_score + 1 }
  else r

/-- Step 6 of `assess_dataset_url`: mark the URL accessible. -/
def assessStep6 (r : AssessResult) : AssessResult :=
  { r with accessibility := "Accessible" }

/-- The six numbered steps of the `try` block, in order. -/
def assessSteps (url paper_doi page_text : String) (env : AssessEnv) :
    List (AssessResult → AssessResult) :=
  [assessStep1 url, assessStep2 env, assessStep3 page_text paper_doi env,
   assessStep4 env, assessStep5 env, assessStep6]

/-- Run the first `k` steps. -/
def runSteps (url paper_doi page_text : String) (env : AssessEnv) (k : Nat) :
    AssessResult :=
  ((assessSteps url paper_doi page_text env).take k).foldl (fun r f => f r)
    (initResult url)

/-- Embeds `assess_dataset_url` of data_fair_assessment.py.  A
timeout or request exception is caught before any step runs; an
unexpected exception at `interrupt` is caught after the preceding
steps ran and stamps a parse-error marker; otherwise all six steps
run.  Error messages are truncated to 100 characters as in the
source. -/
def assess_dataset_url (url paper_doi : String) (env : AssessEnv) : AssessResult :=
  match env.fetch with
  | .timeout => { initResult url with accessibility := "Error: Request timeout" }
  | .reqError msg => { initResult url with accessibility := "Error: " ++ msg.take 100 }
  | .ok pageText =>
    match env.interrupt with
    | none => runSteps url paper_doi pageText env 6
    | some ip =>
      { runSteps url paper_doi pageText env ip.stepsDone with
        accessibility := "Parse Error: " ++ env.errMsg.take 100 }

/-- Number of non-empty values among the four scored fields of a
result record. -/
def signalCount (r : AssessResult) : Nat :=
  (if r.repository ≠ "" then 1 else 0) + (if r.dataset_doi ≠ "" then 1 else 0) +
    (if r.file_formats ≠ "" then 1 else 0) + (if r.license ≠ "" then 1 else 0)

/-- An accessibility string that records a failure, as produced by
the three `except` arms of `assess_dataset_url`. -/
def isErrorMarker (s : String) : Prop :=
  (∃ t, s = "Error: " ++ t) ∨ (∃ t, s = "Parse Error: " ++ t)

/-- Well-formedness of an environment: the source's
`extract_formats_from_html` can only return non-empty strings (every
match of its patterns contains a file extension), so the environment
field standing in for its result contains no empty string. -/
def AssessEnv.Wf (env : AssessEnv) : Prop := "" ∉ env.htmlFormats

example :
    assess_dataset_url "https://zenodo.org/records/1"
      "10.1000/paper1"
      ⟨.ok "Data at 10.5281/zenodo.123 under CC BY 4.0", [], ["d.csv"], ["CSV"], "", "CC BY 4.0", none, ""⟩ =
    ⟨"https://zenodo.org/records/1", "10.5281/zenodo.123", "d.csv", "CSV",
      "CC BY 4.0", "Zenodo", "Accessible", 4⟩ := by decide

/-- Python's `a or b` on strings: the first operand when non-empty
(truthy), otherwise the second. -/
def orS (a b : String) : String := if a ≠ "" then a else b

/-- One metadata source's answer for the three reconciled fields. -/
structure SourceMeta where
  title : String
  authors : String
  journal : String
deriving DecidableEq

/-- Embeds the field reconciliation of `process_publication_list` in
fair_champion.py: for each field, `epmc or crossref or meta`. -/
def mergeMeta (epmc cr meta : SourceMeta) : SourceMeta :=
  ⟨orS epmc.title (orS cr.title meta.title),
   orS epmc.authors (orS cr.authors meta.authors),
   orS epmc.journal (orS cr.journal meta.journal)⟩

/-- Claim-side of C5: the value of the first source in the priority
list that returned a non-empty string, or empty. -/
def firstNonEmptySrc (l : List String) : String :=
  (l.find? fun s => s != "").getD ""

/-- Map control characters (U+0000–U+001F, U+007F–U+009F) to spaces,
as the first substitution of fair_champion's `clean_text`. -/
def controlToSpace (c : Char) : Char :=
  if c.toNat ≤ 31 ∨ (127 ≤ c.toNat ∧ c.toNat ≤ 159) then ' ' else c

/-- Collapse every character of the whitespace class to a plain
space. -/
def wsToSpace (c : Char) : Char := if isSpaceChar c then ' ' else c

/-- Squeeze runs of adjacent spaces to a single space. -/
def squeezeSpaces : List Char → List Char
  | [] => []
  | [c] => [c]
  | a :: b :: t =>
    if a = ' ' ∧ b = ' ' then squeezeSpaces (b :: t)
    else a :: squeezeSpaces (b :: t)

/-- Embeds `clean_text` of fair_champion.py: control characters
become spaces, whitespace runs collapse to one space, and the ends
are stripped.  The source also applies `html.unescape` and NFC
normalisation first; both are the identity on ASCII text free of
entity references, which is the only text handled here. -/
def cleanTextFC (s : String) : String :=
  if s = "" then ""
  else trimStr (String.mk (squeezeSpaces ((s.data.map controlToSpace).map wsToSpace)))

/-- A sibling node following a heading in the parsed article page:
another heading `h1`–`h6` (with its level and text), a bare string
node (a `NavigableString`), or any other element with its
`get_text(" ", strip=True)` rendering. -/
inductive Node
  | headingNode (level : Nat) (text : String)
  | strNode (s : String)
  | elemNode (text : String)
deriving DecidableEq

/-- One `h1`–`h6` element found by `soup.find_all`, with its level,
its `get_text()` and its following siblings in order. -/
structure HeadingInfo where
  level : Nat
  text : String
  sibs : List Node
deriving DecidableEq

/-- A rendered article page as `fetch_data_availability` consumes it:
the `h1`–`h6` elements in document order, the result of the inline
regex fallback over the full page text (the matched span of the first
pattern that hits, if any), and the content of the
`citation_data_availability` meta tag when present. -/
structure Page where
  headings : List HeadingInfo
  inlineHit : Option String
  metaHit : Option String
deriving DecidableEq

/-- Whether a heading's text matches the data-availability phrasing
regex `data (availability|accessibility)|availability of data|data
sharing statement` case-insensitively. -/
def headingMatches (t : String) : Bool :=
  containsCI t "data availability" || containsCI t "data accessibility" ||
    containsCI t "availability of data" || containsCI t "data sharing statement"

/-- The sibling-collection loop of `fetch_data_availability`: walk
the siblings after the matched heading, stop at the first following
heading of any level, strip bare strings, and keep element texts. -/
def collectFragments : List Node → List String
  | [] => []
  | Node.headingNode _ _ :: _ => []
  | Node.strNode s :: rest => trimStr s :: collectFragments rest
  | Node.elemNode t :: rest => t :: collectFragments rest

/-- The cleaned statement assembled for one heading. -/
def headingStatement (h : HeadingInfo) : String :=
  cleanTextFC (pyJoin " " (collectFragments h.sibs))

/-- The heading loop of `fetch_data_availability`: the first matching
heading whose assembled statement is non-empty wins. -/
def tryHeadings : List HeadingInfo → Option (String × String)
  | [] => none
  | h :: rest =>
    if headingMatches h.text then
      if headingStatement h ≠ "" then some (cleanTextFC h.text, headingStatement h)
      else tryHeadings rest
    else tryHeadings rest

/-- Embeds `fetch_data_availability` of fair_champion.py: heading
strategy first, then the inline regex fallback, then the citation
meta tag, else empty. -/
def fetch_data_availability (p : Page) : String × String :=
  match tryHeadings p.headings with
  | some r => r
  | none =>
    match p.inlineHit with
    | some m => ("", cleanTextFC m)
    | none =>
      match p.metaHit with
      | some c => ("", cleanTextFC c)
      | none => ("", "")

/-- Claim-side of C6 (original wording): collect sibling content
after a heading of level `lvl` up to but excluding the next heading
of equal-or-higher prominence (level numerically at most `lvl`),
keeping the text of less prominent headings. -/
def collectUpToProminent (lvl : Nat) : List Node → List String
  | [] => []
  | Node.headingNode l t :: rest =>
    if l ≤ lvl then [] else t :: collectUpToProminent lvl rest
  | Node.strNode s :: rest => trimStr s :: collectUpToProminent lvl rest
  | Node.elemNode t :: rest => t :: collectUpToProminent lvl rest

/-- Claim-side of C6 (amended): the first heading, in document order,
that matches a data-availability phrasing and whose collected
statement is non-empty, paired with that statement. -/
def tryHeadingsSpec (hs : List HeadingInfo) : Option (String × String) :=
  (hs.filterMap fun h =>
    if headingMatches h.text ∧ headingStatement h ≠ "" then
      some (cleanTextFC h.text, headingStatement h)
    else none).head?

/-- Claim-side of C6 (amended): the three strategies in decreasing
confidence, returning empty when all fail. -/
def fetchDASpec (p : Page) : String × String :=
  match tryHeadingsSpec p.headings with
  | some r => r
  | none =>
    match p.inlineHit with
    | some m => ("", cleanTextFC m)
    | none =>
      match p.metaHit with
      | some c => ("", cleanTextFC c)
      | none => ("", "")

/-- A Python exception value as it crosses the modelled pipelines. -/
inductive PyErr
  | nameError (missing : String)
  | httpError (status : Nat)
  | timeout
deriving DecidableEq

/-- Rendering of the exception used in the XML pipeline's log line. -/
def PyErr.msg : PyErr → String
  | .nameError missing => "name " ++ missing ++ " is not defined"
  | .httpError status => "HTTP error " ++ Nat.repr status
  | .timeout => "timeout"

/-- The record dictionaries returned by `fetch_by_doi` in
els_router.py. -/
structure RouterRecord where
  doi : String
  publisher : String
  status : String
  payload : Option String
deriving DecidableEq

/-- Environment of the els_router pipeline: `get_publisher` swallows
its own errors and always returns a string; the Springer and Wiley
fetchers perform guarded requests that may raise
(`raise_for_status`), return `none` on 404, or return a body. -/
structure RouterEnv where
  publisher : String → String
  springerFetch : String → Except PyErr (Option String)
  wileyFetch : String → Except PyErr (Option String)

/-- Embeds `fetch_elsevier` of els_router.py.  Its body builds the
headers dictionary from the name `API_KEY`, which is defined nowhere
in the module (the module-level constant is `ELSEVIER_KEY`), so every
call raises `NameError` before any request is issued. -/
def fetch_elsevier (_doi : String) : Except PyErr (Option String) :=
  .error (PyErr.nameError "API_KEY")

/-- Embeds `fetch_by_doi` of els_router.py: route on the lower-cased
publisher name; only `get_publisher` catches exceptions, so an
exception from a fetcher propagates to the caller. -/
def fetch_by_doi (env : RouterEnv) (doi : String) : Except PyErr RouterRecord :=
  let publisher := lowerStr (env.publisher doi)
  if containsStr publisher "elsevier" || containsStr publisher "cell press" ||
      containsStr publisher "lancet" then
    (fetch_elsevier doi).bind fun data =>
      match data with
      | none => .ok ⟨doi, publisher, "not_elsevier", none⟩
      | some d => .ok ⟨doi, publisher, "success", some d⟩
  else if containsStr publisher "springer" || containsStr publisher "biomed central" then
    (env.springerFetch doi).bind fun data => .ok ⟨doi, publisher, "success", data⟩
  else if containsStr publisher "wiley" then
    (env.wileyFetch doi).bind fun data => .ok ⟨doi, publisher, "success", data⟩
  else .ok ⟨doi, publisher, "unsupported_publisher", none⟩

/-- Embeds the `__main__` loop of process_docx.py: each DOI is passed
to `fetch_by_doi` with no surrounding `try`, so the loop either
yields every record or terminates at the first exception, which
propagates. -/
def processDocxRun (env : RouterEnv) : List String → Except PyErr (List RouterRecord)
  | [] => .ok []
  | doi :: rest =>
    (fetch_by_doi env doi).bind fun r =>
      (processDocxRun env rest).map fun rs => r :: rs

/-- One input line of the XML pipeline: title and DOI. -/
structure XmlPaper where
  title : String
  doi : String
deriving DecidableEq

/-- Embeds the per-paper loop of `main` in
els_router_xml_pipeline.py: the whole body for one paper (modelled by
`g`, covering `fetch_and_save_for_doi` and the row construction) is
wrapped in `try`; on success the row is written, on exception a log
line `"<doi>: ERROR → <e>"` is appended and the loop continues.  The
result is the pair (CSV rows, log lines), each in emission order. -/
def xmlMainLoop {α : Type} (g : XmlPaper → Except PyErr α) :
    List XmlPaper → List α × List String
  | [] => ([], [])
  | p :: rest =>
    match g p with
    | .ok row =>
      (row :: (xmlMainLoop g rest).1, (xmlMainLoop g rest).2)
    | .error e =>
      ((xmlMainLoop g rest).1, (p.doi ++ ": ERROR → " ++ e.msg) :: (xmlMainLoop g rest).2)

/-- One input row of the FAIR-assessment pipeline. -/
structure PaperRow where
  doi : String
  title : String
  data_links : String
deriving DecidableEq

/-- The link splitting of `process_data_links`: split on `;`, strip,
drop empties. -/
def splitLinks (s : String) : List String :=
  ((pySplit ";" s).map trimStr).filter fun l => l != ""

/-- One output row of the FAIR-assessment pipeline. -/
structure OutRow where
  paper_doi : String
  paper_title : String
  data_link : String
  dataset_doi : String
  file_name : String
  repository : String
  file_formats : String
  license : String
  accessibility : String
  fair_score : Nat
deriving DecidableEq

/-- Row constructor of `process_data_links`. -/
def mkOutRow (p : PaperRow) (link : String) (a : AssessResult) : OutRow :=
  ⟨p.doi, p.title, link, a.dataset_doi, a.file_name, a.repository,
    a.file_formats, a.license, a.accessibility, a.fair_score⟩

/-- Embeds the per-paper, per-link loop of `process_data_links` in
data_fair_assessment.py: every link of every paper is assessed
(`assess_dataset_url` returns normally on every input) and appended
as one row; the per-link environment abstracts the network. -/
def processDataLinks (envOf : String → AssessEnv) (papers : List PaperRow) :
    List OutRow :=
  papers.flatMap fun p =>
    (splitLinks p.data_links).map fun link =>
      mkOutRow p link (assess_dataset_url link p.doi (envOf link))

/-- The file-name set step 2 works from, as a function of the inputs
(after step 1 the repository field holds `identify_repository url`). -/
def collectedFilenames (url : String) (env : AssessEnv) : List String :=
  if identify_repository url = "Mendeley Data" ∧ env.mendeleyFiles ≠ [] then
    env.mendeleyFiles
  else env.htmlFilenames

/-- The `file_name` field after step 2, as a function of the inputs. -/
def fnameAfterStep2 (url : String) (env : AssessEnv) : String :=
  if collectedFilenames url env ≠ [] then
    pyJoin ", " ((sortedSet (collectedFilenames url env)).take 10)
  else ""

/-- Claim-side of C10: the list of file names the final record
displays — the first ten of the ascending-sorted extracted set, or
the single DataCite-recovered name when that set displayed nothing
and a dataset DOI was found. -/
def displayedFiles (url paper_doi page_text : String) (env : AssessEnv) : List String :=
  if pyJoin ", " ((sortedSet (collectedFilenames url env)).take 10) ≠ "" then
    (sortedSet (collectedFilenames url env)).take 10
  else if extract_dataset_doi page_text paper_doi ≠ "" ∧ env.dataciteFilename ≠ "" then
    [env.dataciteFilename]
  else []

/-- The format set step 4 works from, as a function of the inputs. -/
def fmtsAll (url paper_doi page_text : String) (env : AssessEnv) : List String :=
  env.htmlFormats ++
    extsFromFileName (pyJoin ", " (displayedFiles url paper_doi page_text env))

/-- Claim-side of C10: the list of formats the final record displays
— the first ten of the ascending-sorted extracted format set. -/
def displayedFormats (url paper_doi page_text : String) (env : AssessEnv) : List String :=
  (sortedSet (fmtsAll url paper_doi page_text env)).take 10

/-- Concrete router environment for the C2 counterexample: Crossref
reports an Elsevier publisher for every DOI; the other fetchers would
succeed. -/
def routerEnvC2 : RouterEnv :=
  ⟨fun _ => "Elsevier BV", fun _ => .ok none, fun _ => .ok none⟩

/-- Sibling nodes for the C6 counterexample: content, then a less
prominent h4 heading, then more content. -/
def sibsC6 : List Node :=
  [Node.elemNode "Datasets at repo X.", Node.headingNode 4 "Subsection",
   Node.elemNode "More text."]

/-- Page for the C6 counterexample: one matching h2 heading followed
by `sibsC6`; no inline or meta fallback. -/
def pageC6 : Page := ⟨[⟨2, "Data Availability", sibsC6⟩], none, none⟩

lemma str_ne_empty_iff (s : String) : s ≠ "" ↔ s.data ≠ [] := by
  cases s with
  | mk d => simp [String.ext_iff]

lemma pyJoin_cons_ne (x : String) (xs : List String) (hx : x ≠ "") :
    pyJoin ", " (x :: xs) ≠ "" := by
  cases xs with
  | nil => simpa [pyJoin] using hx
  | cons y t =>
    simp only [pyJoin]
    rw [str_ne_empty_iff]
    rw [str_ne_empty_iff] at hx
    intro h
    rw [String.data_append, String.data_append] at h
    exact hx (List.append_eq_nil.mp (List.append_eq_nil.mp h).1).1

lemma mem_insertSorted (a x : String) (l : List String) :
    a ∈ insertSorted x l ↔ a = x ∨ a ∈ l := by
  induction l with
  | nil => simp [insertSorted]
  | cons y ys ih =>
    by_cases h : strLeB x y
    · simp [insertSorted, h]
    · simp [insertSorted, h, ih]
      tauto

lemma mem_sortAsc (a : String) (l : List String) : a ∈ sortAsc l ↔ a ∈ l := by
  induction l with
  | nil => simp [sortAsc]
  | cons x xs ih => simp [sortAsc, List.foldr] at ih ⊢; rw [mem_insertSorted]; tauto

lemma insertSorted_ne_nil (x : String) (l : List String) : insertSorted x l ≠ [] := by
  cases l with
  | nil => simp [insertSorted]
  | cons y ys => by_cases h : strLeB x y <;> simp [insertSorted, h]

lemma sortAsc_ne_nil (l : List String) (h : l ≠ []) : sortAsc l ≠ [] := by
  cases l with
  | nil => exact absurd rfl h
  | cons x xs => exact insertSorted_ne_nil x (sortAsc xs)

lemma mem_sortedSet (a : String) (l : List String) : a ∈ sortedSet l ↔ a ∈ l := by
  rw [sortedSet, mem_sortAsc, List.mem_dedup]

lemma sortedSet_ne_nil (l : List String) (h : l ≠ []) : sortedSet l ≠ [] := by
  refine sortAsc_ne_nil _ fun hd => h ?_
  exact (List.dedup_eq_nil (l := l)).mp hd

lemma take10_ne_nil (l : List String) (h : l ≠ []) : l.take 10 ≠ [] := by
  cases l <;> simp_all

lemma lastExt_some_ne (f s : String) (h : lastExt f = some s) : s ≠ "" := by
  unfold lastExt at h
  split at h
  · rename_i hcond
    rw [str_ne_empty_iff]
    cases h' : (f.data.reverse.takeWhile Char.isAlphanum) with
    | nil => exact absurd h' hcond.1
    | cons c cs =>
      injection h with h
      subst h
      simp [h']
  · exact absurd h (by simp)

lemma extract_empty_of_all_self (pt pd : String)
    (h : ∀ m ∈ doiFindAll pt.data, lowerStr m = lowerStr pd) :
    extract_dataset_doi pt pd = "" := by
  unfold extract_dataset_doi
  have hnil : (doiFindAll pt.data).filter (fun d => lowerStr d != lowerStr pd) = [] := by
    refine List.filter_eq_nil_iff.mpr fun a ha => ?_
    simp [h a ha]
  rw [hnil]
  rfl

lemma extsFromFileName_ne (fn s : String) (h : s ∈ extsFromFileName fn) : s ≠ "" := by
  unfold extsFromFileName at h
  split at h
  · obtain ⟨a, _, ha⟩ := List.mem_filterMap.mp h
    exact lastExt_some_ne a s ha
  · simp at h

lemma join_sortedSet_take_ne (l : List String) (hl : l ≠ [])
    (he : ∀ x ∈ l, x ≠ "") : pyJoin ", " ((sortedSet l).take 10) ≠ "" := by
  have h2 : (sortedSet l).take 10 ≠ [] := take10_ne_nil _ (sortedSet_ne_nil l hl)
  cases h3 : (sortedSet l).take 10 with
  | nil => exact absurd h3 h2
  | cons x xs =>
    refine pyJoin_cons_ne x xs (he x ?_)
    have : x ∈ (sortedSet l).take 10 := by rw [h3]; exact List.mem_cons_self x xs
    exact (mem_sortedSet x l).mp (List.take_subset 10 (sortedSet l) this)

lemma fmtsAll_elems_ne (url pd pt : String) (env : AssessEnv) (hwf : env.Wf)
    (s : String) (h : s ∈ fmtsAll url pd pt env) : s ≠ "" := by
  rcases List.mem_append.mp h with h1 | h2
  · intro he; subst he; exact hwf h1
  · exact extsFromFileName_ne _ s h2

lemma join_displayedFormats_ne_iff (url pd pt : String) (env : AssessEnv)
    (hwf : env.Wf) :
    pyJoin ", " (displayedFormats url pd pt env) ≠ "" ↔ fmtsAll url pd pt env ≠ [] := by
  unfold displayedFormats
  constructor
  · intro h hnil
    rw [hnil] at h
    simp [sortedSet, sortAsc, pyJoin] at h
  · intro h
    exact join_sortedSet_take_ne _ h (fmtsAll_elems_ne url pd pt env hwf)

lemma headD_eq_getD (l : List String) : l.headD "" = l.head?.getD "" := by
  cases l <;> rfl

lemma head?_filter_eq_find? (p : String → Bool) (l : List String) :
    (l.filter p).head? = l.find? p := by
  induction l with
  | nil => rfl
  | cons a t ih => by_cases h : p a <;> simp [List.filter_cons, List.find?_cons, h, ih]

lemma extract_dataset_doi_eq_find? (pt pd : String) :
    extract_dataset_doi pt pd =
      ((doiFindAll pt.data).find? fun d => lowerStr d != lowerStr pd).getD "" := by
  unfold extract_dataset_doi
  rw [headD_eq_getD, head?_filter_eq_find?]

lemma firstRepoLabel_eq_find? (table : List (String × List String)) (url : String) :
    firstRepoLabel table url =
      ((table.find? fun p => p.2.any fun pat => containsCI url pat).map Prod.fst).getD "" := by
  induction table with
  | nil => rfl
  | cons p t ih =>
    cases p with
    | mk label pats =>
      by_cases h : pats.any (fun pat => containsCI url pat) <;>
        simp [firstRepoLabel, List.find?_cons, h, ih]

lemma fnameAfterStep2_eq_join (url : String) (env : AssessEnv) :
    fnameAfterStep2 url env =
      pyJoin ", " ((sortedSet (collectedFilenames url env)).take 10) := by
  unfold fnameAfterStep2
  by_cases h : collectedFilenames url env ≠ []
  · simp [h]
  · simp only [ne_eq, not_not] at h
    simp [h, sortedSet, sortAsc, pyJoin]

lemma run0_eq (url pd pt : String) (env : AssessEnv) :
    runSteps url pd pt env 0 = initResult url := rfl

lemma run1_eq (url pd pt : String) (env : AssessEnv) :
    runSteps url pd pt env 1 =
      ⟨url, "", "", "", "", identify_repository url, "Unknown",
        if identify_repository url ≠ "" then 1 else 0⟩ := by
  show assessStep1 url (initResult url) = _
  unfold assessStep1 initResult
  by_cases h : identify_repository url ≠ "" <;> simp [h]

lemma run2_eq (url pd pt : String) (env : AssessEnv) :
    runSteps url pd pt env 2 =
      ⟨url, "", fnameAfterStep2 url env, "", "", identify_repository url, "Unknown",
        if identify_repository url ≠ "" then 1 else 0⟩ := by
  show assessStep2 env (runSteps url pd pt env 1) = _
  rw [run1_eq]
  unfold assessStep2 step2Filenames fnameAfterStep2 collectedFilenames
  by_cases h : (if identify_repository url = "Mendeley Data" ∧ env.mendeleyFiles ≠ []
      then env.mendeleyFiles else env.htmlFilenames) ≠ [] <;> simp [h]

lemma run3_eq (url pd pt : String) (env : AssessEnv) :
    runSteps url pd pt env 3 =
      ⟨url, extract_dataset_doi pt pd,
        pyJoin ", " (displayedFiles url pd pt env), "", "",
        identify_repository url, "Unknown",
        (if identify_repository url ≠ "" then 1 else 0) +
          (if extract_dataset_doi pt pd ≠ "" then 1 else 0)⟩ := by
  show assessStep3 pt pd env (runSteps url pd pt env 2) = _
  rw [run2_eq]
  unfold assessStep3 displayedFiles
  rw [fnameAfterStep2_eq_join]
  by_cases hdd : extract_dataset_doi pt pd ≠ ""
  · by_cases hfn : pyJoin ", " ((sortedSet (collectedFilenames url env)).take 10) ≠ ""
    · simp [hdd, hfn]
    · simp only [ne_eq, not_not] at hfn
      by_cases hdc : env.dataciteFilename ≠ ""
      · simp [hdd, hfn, hdc, pyJoin]
      · simp only [ne_eq, not_not] at hdc
        simp [hdd, hfn, hdc, pyJoin]
  · simp only [ne_eq, not_not] at hdd
    by_cases hfn : pyJoin ", " ((sortedSet (collectedFilenames url env)).take 10) ≠ ""
    · simp [hdd, hfn]
    · simp only [ne_eq, not_not] at hfn
      simp [hdd, hfn, pyJoin]

lemma run4_eq (url pd pt : String) (env : AssessEnv) :
    runSteps url pd pt env 4 =
      ⟨url, extract_dataset_doi pt pd,
        pyJoin ", " (displayedFiles url pd pt env),
        pyJoin ", " (displayedFormats url pd pt env), "",
        identify_repository url, "Unknown",
        (if identify_repository url ≠ "" then 1 else 0) +
          (if extract_dataset_doi pt pd ≠ "" then 1 else 0) +
          (if fmtsAll url pd pt env ≠ [] then 1 else 0)⟩ := by
  show assessStep4 env (runSteps url pd pt env 3) = _
  rw [run3_eq]
  unfold assessStep4 step4Formats displayedFormats fmtsAll
  by_cases h : env.htmlFormats ++
      extsFromFileName (pyJoin ", " (displayedFiles url pd pt env)) ≠ []
  · simp [h]
  · simp only [ne_eq, not_not] at h
    simp [h, sortedSet, sortAsc, pyJoin]

lemma run5_eq (url pd pt : String) (env : AssessEnv) :
    runSteps url pd pt env 5 =
      ⟨url, extract_dataset_doi pt pd,
        pyJoin ", " (displayedFiles url pd pt env),
        pyJoin ", " (displayedFormats url pd pt env), env.licenseInfo,
        identify_repository url, "Unknown",
        (if identify_repository url ≠ "" then 1 else 0) +
          (if extract_dataset_doi pt pd ≠ "" then 1 else 0) +
          (if fmtsAll url pd pt env ≠ [] then 1 else 0) +
          (if env.licenseInfo ≠ "" then 1 else 0)⟩ := by
  show assessStep5 env (runSteps url pd pt env 4) = _
  rw [run4_eq]
  unfold assessStep5
  by_cases h : env.licenseInfo ≠ ""
  · simp [h]
  · simp only [ne_eq, not_not] at h
    simp [h]

lemma run6_eq (url pd pt : String) (env : AssessEnv) :
    runSteps url pd pt env 6 =
      ⟨url, extract_dataset_doi pt pd,
        pyJoin ", " (displayedFiles url pd pt env),
        pyJoin ", " (displayedFormats url pd pt env), env.licenseInfo,
        identify_repository url, "Accessible",
        (if identify_repository url ≠ "" then 1 else 0) +
          (if extract_dataset_doi pt pd ≠ "" then 1 else 0) +
          (if fmtsAll url pd pt env ≠ [] then 1 else 0) +
          (if env.licenseInfo ≠ "" then 1 else 0)⟩ := by
  show assessStep6 (runSteps url pd pt env 5) = _
  rw [run5_eq]
  rfl

lemma xmlMainLoop_counts {α : Type} (g : XmlPaper → Except PyErr α)
    (papers : List XmlPaper) :
    (xmlMainLoop g papers).1.length + (xmlMainLoop g papers).2.length =
      papers.length := by
  induction papers with
  | nil => rfl
  | cons p rest ih =>
    unfold xmlMainLoop
    cases g p <;> simp <;> omega

lemma processDataLinks_length (envOf : String → AssessEnv) (papers : List PaperRow) :
    (processDataLinks envOf papers).length =
      (papers.map fun p => (splitLinks p.data_links).length).sum := by
  induction papers with
  | nil => rfl
  | cons p rest ih =>
    unfold processDataLinks at ih ⊢
    simp [List.flatMap_cons, ih]

lemma tryHeadings_eq_spec (hs : List HeadingInfo) :
    tryHeadings hs = tryHeadingsSpec hs := by
  induction hs with
  | nil => rfl
  | cons h rest ih =>
    by_cases hm : headingMatches h.text
    · by_cases hst : headingStatement h ≠ ""
      · simp [tryHeadings, tryHeadingsSpec, List.filterMap_cons, hm, hst]
      · simp only [ne_eq, not_not] at hst
        simp [tryHeadings, tryHeadingsSpec, List.filterMap_cons, hm, hst, ih,
          tryHeadingsSpec]
    · simp [tryHeadings, tryHeadingsSpec, List.filterMap_cons, hm, ih]

lemma displayedFiles_length_le (url pd pt : String) (env : AssessEnv) :
    (displayedFiles url pd pt env).length ≤ 10 := by
  unfold displayedFiles
  split_ifs <;> simp [List.length_take]

lemma displayedFormats_length_le (url pd pt : String) (env : AssessEnv) :
    (displayedFormats url pd pt env).length ≤ 10 := by
  unfold displayedFormats
  simp [List.length_take]

lemma firstNonEmptySrc_cons (s : String) (l : List String) :
    firstNonEmptySrc (s :: l) = if s = "" then firstNonEmptySrc l else s := by
  by_cases h : s = ""
  · subst h
    simp [firstNonEmptySrc, List.find?_cons]
  · have h' : (s != "") = true := by simpa [bne_iff_ne]
    simp [firstNonEmptySrc, List.find?_cons, h', h]

lemma orS_spec (a b c : String) :
    orS a (orS b c) = firstNonEmptySrc [a, b, c] ∧
      (orS a (orS b c) = a ∨ orS a (orS b c) = b ∨ orS a (orS b c) = c) := by
  by_cases ha : a = "" <;> by_cases hb : b = "" <;> by_cases hc : c = "" <;>
    simp [orS, firstNonEmptySrc_cons, firstNonEmptySrc, ha, hb, hc]

/-- C7: a fetch that raises a timeout yields the initial record with
only the accessibility field changed to the timeout marker: score 0
and every text field empty. -/
theorem claim7_timeout_record (url pd : String) (mf hf hfmt : List String)
    (dc lic em : String) (intr : Option InterruptAt) :
    assess_dataset_url url pd ⟨.timeout, mf, hf, hfmt, dc, lic, intr, em⟩ =
      ⟨url, "", "", "", "", "", "Error: Request timeout", 0⟩ := rfl

/-- C8: repository identification returns the label of the first
entry of the fixed ordered pattern table whose pattern matches the
URL case-insensitively, the empty string when none matches, and is a
pure deterministic function of the URL (two calls agree trivially in
this pure embedding). -/
theorem claim8_repository_first_match (url : String) :
    identify_repository url = firstMatchingLabel url ∧
      identify_repository url = identify_repository url :=
  ⟨by rw [identify_repository, firstMatchingLabel, firstRepoLabel_eq_find?], rfl⟩

/-- C5: each reconciled field equals the value of the first source in
the priority order Europe PMC, Crossref, HTML meta that returned a
non-empty string (hence empty when all are empty), never mixes
sources (it is one of the three source values verbatim), and
reconciliation of identical source responses is identical. -/
theorem claim5_merge_first_non_empty (e c m : SourceMeta) :
    ((mergeMeta e c m).title = firstNonEmptySrc [e.title, c.title, m.title] ∧
      ((mergeMeta e c m).title = e.title ∨ (mergeMeta e c m).title = c.title ∨
        (mergeMeta e c m).title = m.title)) ∧
    ((mergeMeta e c m).authors = firstNonEmptySrc [e.authors, c.authors, m.authors] ∧
      ((mergeMeta e c m).authors = e.authors ∨ (mergeMeta e c m).authors = c.authors ∨
        (mergeMeta e c m).authors = m.authors)) ∧
    ((mergeMeta e c m).journal = firstNonEmptySrc [e.journal, c.journal, m.journal] ∧
      ((mergeMeta e c m).journal = e.journal ∨ (mergeMeta e c m).journal = c.journal ∨
        (mergeMeta e c m).journal = m.journal)) ∧
    (e.title = "" ∧ c.title = "" ∧ m.title = "" → (mergeMeta e c m).title = "") ∧
    (∀ e2 c2 m2 : SourceMeta, e = e2 → c = c2 → m = m2 →
      mergeMeta e c m = mergeMeta e2 c2 m2) := by
  refine ⟨orS_spec _ _ _, orS_spec _ _ _, orS_spec _ _ _, ?_, ?_⟩
  · rintro ⟨h1, h2, h3⟩
    simp [mergeMeta, orS, h1, h2, h3]
  · rintro e2 c2 m2 rfl rfl rfl
    rfl

/-- Witness for C5 at a concrete input where the first source is
empty and the second is not. -/
theorem claim5_witness :
    (mergeMeta ⟨"", "A EPMC", ""⟩ ⟨"T Cross", "A Cross", ""⟩ ⟨"T Meta", "A Meta", "J Meta"⟩).title =
        firstNonEmptySrc ["", "T Cross", "T Meta"] ∧
      (mergeMeta ⟨"", "A EPMC", ""⟩ ⟨"T Cross", "A Cross", ""⟩ ⟨"T Meta", "A Meta", "J Meta"⟩).title =
        "T Cross" :=
  ⟨(claim5_merge_first_non_empty ⟨"", "A EPMC", ""⟩ ⟨"T Cross", "A Cross", ""⟩
      ⟨"T Meta", "A Meta", "J Meta"⟩).1.1, by decide⟩

/-- Counterexample to C3 as stated: with an empty paper DOI (as
produced by `paper.get('doi', '')` for a row without a DOI) and a
page without any DOI-pattern match, the extraction returns the empty
string, which is equal case-insensitively to the paper DOI. -/
theorem claim3_counterexample :
    extract_dataset_doi "No data availability statement found" "" = "" ∧
      lowerStr (extract_dataset_doi "No data availability statement found" "") =
        lowerStr "" := by
  refine ⟨by decide, by decide⟩

/-- C3 (amended): the extraction never returns a NON-EMPTY string
equal case-insensitively to the paper DOI; every DOI-pattern match
equal case-insensitively to the paper DOI is discarded and the first
remaining match (or the empty string) is returned. -/
theorem claim3_no_self_doi (pt pd : String) :
    (extract_dataset_doi pt pd ≠ "" →
      lowerStr (extract_dataset_doi pt pd) ≠ lowerStr pd) ∧
    extract_dataset_doi pt pd =
      ((doiFindAll pt.data).find? fun d => lowerStr d != lowerStr pd).getD "" := by
  refine ⟨?_, extract_dataset_doi_eq_find? pt pd⟩
  intro hne
  unfold extract_dataset_doi at hne ⊢
  cases hfl : (doiFindAll pt.data).filter (fun x => lowerStr x != lowerStr pd) with
  | nil => rw [hfl] at hne; exact absurd rfl hne
  | cons d t =>
    have hmem : d ∈ (doiFindAll pt.data).filter (fun x => lowerStr x != lowerStr pd) := by
      rw [hfl]; exact List.mem_cons_self d t
    have hd := (List.mem_filter.mp hmem).2
    simpa using hd

/-- Witness for C3 (amended) at a concrete page and paper DOI. -/
theorem claim3_witness :
    lowerStr (extract_dataset_doi "see 10.5281/zenodo.123" "10.1000/x") ≠
      lowerStr "10.1000/x" :=
  (claim3_no_self_doi "see 10.5281/zenodo.123" "10.1000/x").1 (by decide)

/-- Counterexample to C6 as stated: on a page whose matching h2
heading is followed by content, an h4 subheading of lower prominence
and further content, the code stops collecting at the h4 (a heading
of any level), while the claim prescribes collecting up to the next
heading of equal-or-higher prominence, which would also take the h4
text and the content after it; the two statements differ. -/
theorem claim6_counterexample :
    fetch_data_availability pageC6 = ("Data Availability", "Datasets at repo X.") ∧
      cleanTextFC (pyJoin " " (collectUpToProminent 2 sibsC6)) =
        "Datasets at repo X. Subsection More text." ∧
      ("Datasets at repo X." : String) ≠
        "Datasets at repo X. Subsection More text." := by
  refine ⟨by decide, by decide, by decide⟩

/-- C6 (amended): the locator returns, for the first
data-availability heading (searched case-insensitively over all
h1–h6 elements) whose sibling content up to but excluding the next
heading of ANY level is non-empty after cleaning, that heading text
and statement; only if no heading yields a statement does it fall
back to the inline regex patterns over the full page text, then to
the citation meta tag, and it returns empty section and statement
when all three strategies fail. -/
theorem claim6_locator_strategies (p : Page) :
    fetch_data_availability p = fetchDASpec p := by
  unfold fetch_data_availability fetchDASpec
  rw [tryHeadings_eq_spec]

/-- Counterexample to C2 as stated: in the process_docx/els_router
pipeline a failing record terminates the run.  With Crossref
reporting an Elsevier publisher, `fetch_elsevier` raises `NameError`
(the undefined name `API_KEY`), there is no surrounding handler, and
the whole run for a two-record input aborts with that exception:
no failure marker is recorded and the second record is never
processed. -/
theorem claim2_counterexample :
    processDocxRun routerEnvC2 ["10.1016/j.cell.2024.01.001", "10.5281/zenodo.123"] =
      Except.error (PyErr.nameError "API_KEY") := rfl

/-- C2 (amended): per-record error containment holds for the XML
pipeline (the loop records a log marker for the failed record and
processes every remaining record; rows plus log markers account for
every input) and for the FAIR-assessment pipeline (every link of
every paper yields exactly one output row), but NOT for the
process_docx/els_router pipeline, where an exception raised while
processing one DOI propagates and terminates the run. -/
theorem claim2_error_containment :
    (∀ (α : Type) (g : XmlPaper → Except PyErr α) (papers : List XmlPaper),
      (xmlMainLoop g papers).1.length + (xmlMainLoop g papers).2.length =
        papers.length) ∧
    (∀ (α : Type) (g : XmlPaper → Except PyErr α) (p : XmlPaper)
        (rest : List XmlPaper) (e : PyErr), g p = .error e →
      xmlMainLoop g (p :: rest) =
        ((xmlMainLoop g rest).1,
          (p.doi ++ ": ERROR → " ++ e.msg) :: (xmlMainLoop g rest).2)) ∧
    (∀ (envOf : String → AssessEnv) (papers : List PaperRow),
      (processDataLinks envOf papers).length =
        (papers.map fun p => (splitLinks p.data_links).length).sum) ∧
    (∀ (renv : RouterEnv) (doi : String) (rest : List String) (e : PyErr),
      fetch_by_doi renv doi = .error e →
        processDocxRun renv (doi :: rest) = .error e) := by
  refine ⟨fun α g papers => xmlMainLoop_counts g papers, ?_,
    fun envOf papers => processDataLinks_length envOf papers, ?_⟩
  · intro α g p rest e h
    have hstep : xmlMainLoop g (p :: rest) =
        match g p with
        | .ok row => (row :: (xmlMainLoop g rest).1, (xmlMainLoop g rest).2)
        | .error e =>
          ((xmlMainLoop g rest).1,
            (p.doi ++ ": ERROR → " ++ e.msg) :: (xmlMainLoop g rest).2) := rfl
    rw [hstep, h]
  · intro renv doi rest e h
    have hstep : processDocxRun renv (doi :: rest) =
        (fetch_by_doi renv doi).bind fun r =>
          (processDocxRun renv rest).map fun rs => r :: rs := rfl
    rw [hstep, h]
    rfl

/-- Witness for C2 (amended): the propagation conjunct applied to the
concrete Elsevier environment, discharging the failure hypothesis by
evaluation. -/
theorem claim2_witness :
    processDocxRun routerEnvC2 ["10.1016/j.a", "10.5555/b"] =
      Except.error (PyErr.nameError "API_KEY") :=
  claim2_error_containment.2.2.2 routerEnvC2 "10.1016/j.a" ["10.5555/b"]
    (PyErr.nameError "API_KEY") rfl

/-- C1: for every URL, paper DOI and environment (including every
fetch failure and every interruption point of the assessment), the
returned record's `fair_score` lies in 0–4 and equals exactly the
number of non-empty values among its fields repository, dataset_doi,
file_formats and license. -/
theorem claim1_fair_score_invariant (url pd : String) (env : AssessEnv)
    (hwf : env.Wf) :
    (assess_dataset_url url pd env).fair_score =
        signalCount (assess_dataset_url url pd env) ∧
      (assess_dataset_url url pd env).fair_score ≤ 4 := by
  cases hfe : env.fetch with
  | timeout => simp [assess_dataset_url, hfe, initResult, signalCount]
  | reqError msg => simp [assess_dataset_url, hfe, initResult, signalCount]
  | ok pt =>
    have hiff := join_displayedFormats_ne_iff url pd pt env hwf
    cases hint : env.interrupt with
    | none =>
      simp only [assess_dataset_url, hfe, hint]
      rw [run6_eq]
      simp only [signalCount]
      constructor
      · by_cases h1 : identify_repository url ≠ "" <;>
          by_cases h2 : extract_dataset_doi pt pd ≠ "" <;>
          by_cases h3 : fmtsAll url pd pt env ≠ [] <;>
          by_cases h4 : env.licenseInfo ≠ "" <;>
          simp_all
      · split_ifs <;> omega
    | some ip =>
      simp only [assess_dataset_url, hfe, hint]
      cases ip with
      | s1 =>
        simp only [InterruptAt.stepsDone, run0_eq]
        simp [initResult, signalCount]
      | s2 =>
        simp only [InterruptAt.stepsDone, run1_eq]
        simp only [signalCount]
        constructor
        · by_cases h1 : identify_repository url ≠ "" <;> simp_all
        · split_ifs <;> omega
      | s3 =>
        simp only [InterruptAt.stepsDone, run2_eq]
        simp only [signalCount]
        constructor
        · by_cases h1 : identify_repository url ≠ "" <;> simp_all
        · split_ifs <;> omega
      | s4 =>
        simp only [InterruptAt.stepsDone, run3_eq]
        simp only [signalCount]
        constructor
        · by_cases h1 : identify_repository url ≠ "" <;>
            by_cases h2 : extract_dataset_doi pt pd ≠ "" <;> simp_all
        · split_ifs <;> omega
      | s5 =>
        simp only [InterruptAt.stepsDone, run4_eq]
        simp only [signalCount]
        constructor
        · by_cases h1 : identify_repository url ≠ "" <;>
            by_cases h2 : extract_dataset_doi pt pd ≠ "" <;>
            by_cases h3 : fmtsAll url pd pt env ≠ [] <;> simp_all
        · split_ifs <;> omega
      | s6 =>
        simp only [InterruptAt.stepsDone, run5_eq]
        simp only [signalCount]
        constructor
        · by_cases h1 : identify_repository url ≠ "" <;>
            by_cases h2 : extract_dataset_doi pt pd ≠ "" <;>
            by_cases h3 : fmtsAll url pd pt env ≠ [] <;>
            by_cases h4 : env.licenseInfo ≠ "" <;> simp_all
        · split_ifs <;> omega

/-- Witness for C1 at a concrete successful assessment. -/
theorem claim1_witness :
    ("" ∉ (["CSV"] : List String)) ∧
      ((assess_dataset_url "https://zenodo.org/records/1" "10.1000/p"
          ⟨.ok "Data at 10.5281/zenodo.9", [], ["d.csv"], ["CSV"], "", "CC BY", none, ""⟩).fair_score =
        signalCount (assess_dataset_url "https://zenodo.org/records/1" "10.1000/p"
          ⟨.ok "Data at 10.5281/zenodo.9", [], ["d.csv"], ["CSV"], "", "CC BY", none, ""⟩) ∧
      (assess_dataset_url "https://zenodo.org/records/1" "10.1000/p"
          ⟨.ok "Data at 10.5281/zenodo.9", [], ["d.csv"], ["CSV"], "", "CC BY", none, ""⟩).fair_score ≤ 4) :=
  ⟨by decide, claim1_fair_score_invariant "https://zenodo.org/records/1" "10.1000/p"
    ⟨.ok "Data at 10.5281/zenodo.9", [], ["d.csv"], ["CSV"], "", "CC BY", none, ""⟩
    (show ("" : String) ∉ (["CSV"] : List String) by decide)⟩

/-- C4: when every DOI-pattern match in the fetched statement text is
equal case-insensitively to the paper's own DOI (the statement
contains only the paper DOI, possibly repeated, and no other DOI),
the extraction returns the empty string, the assessment record's
dataset_doi stays empty, and the fair score counts only the other
three signals — no dataset-DOI point. -/
theorem claim4_self_doi_only (stmt pd url : String) (env : AssessEnv)
    (hself : ∀ m ∈ doiFindAll stmt.data, lowerStr m = lowerStr pd)
    (hwf : env.Wf) (hfe : env.fetch = .ok stmt) (hint : env.interrupt = none) :
    extract_dataset_doi stmt pd = "" ∧
    (assess_dataset_url url pd env).dataset_doi = "" ∧
    (assess_dataset_url url pd env).fair_score =
      (if (assess_dataset_url url pd env).repository ≠ "" then 1 else 0) +
      (if (assess_dataset_url url pd env).file_formats ≠ "" then 1 else 0) +
      (if (assess_dataset_url url pd env).license ≠ "" then 1 else 0) := by
  have hdd := extract_empty_of_all_self stmt pd hself
  have hiff := join_displayedFormats_ne_iff url pd stmt env hwf
  refine ⟨hdd, ?_, ?_⟩ <;> simp only [assess_dataset_url, hfe, hint] <;> rw [run6_eq]
  · simp [hdd]
  · by_cases h1 : identify_repository url ≠ "" <;>
      by_cases h3 : fmtsAll url pd stmt env ≠ [] <;>
      by_cases h4 : env.licenseInfo ≠ "" <;>
      simp_all

/-- Witness for C4: a statement repeating the paper DOI in two
casings and containing no other DOI. -/
theorem claim4_witness :
    (∀ m ∈ doiFindAll "Repeats 10.1000/paper1 and 10.1000/PAPER1 only".data,
        lowerStr m = lowerStr "10.1000/paper1") ∧
      (assess_dataset_url "https://zenodo.org/r/1" "10.1000/paper1"
        ⟨.ok "Repeats 10.1000/paper1 and 10.1000/PAPER1 only", [], [], ["CSV"], "",
          "CC BY", none, ""⟩).dataset_doi = "" :=
  ⟨by decide,
    (claim4_self_doi_only "Repeats 10.1000/paper1 and 10.1000/PAPER1 only"
      "10.1000/paper1" "https://zenodo.org/r/1"
      ⟨.ok "Repeats 10.1000/paper1 and 10.1000/PAPER1 only", [], [], ["CSV"], "",
        "CC BY", none, ""⟩
      (by decide) (show ("" : String) ∉ (["CSV"] : List String) by decide)
      rfl rfl).2.1⟩

/-- C9: `assess_dataset_url` is total — for every environment it
returns a record with exactly the eight keys of the result
dictionary — and whenever the fetch raised (timeout or request
error) or an unexpected exception interrupted the assessment, the
accessibility field holds an error-describing marker. -/
theorem claim9_total_record (url pd : String) (env : AssessEnv) :
    (∃ u dd fn ff lic rep acc sc,
        assess_dataset_url url pd env =
          AssessResult.mk u dd fn ff lic rep acc sc) ∧
      ((env.fetch = FetchOutcome.timeout ∨
          (∃ m, env.fetch = FetchOutcome.reqError m) ∨ env.interrupt ≠ none) →
        isErrorMarker (assess_dataset_url url pd env).accessibility) := by
  constructor
  · exact ⟨_, _, _, _, _, _, _, _, rfl⟩
  · intro hfail
    cases hfe : env.fetch with
    | timeout =>
      simp only [assess_dataset_url, hfe]
      exact Or.inl ⟨"Request timeout", by decide⟩
    | reqError m =>
      simp only [assess_dataset_url, hfe]
      exact Or.inl ⟨m.take 100, rfl⟩
    | ok pt =>
      rcases hfail with h | ⟨m, h⟩ | h
      · rw [hfe] at h; exact FetchOutcome.noConfusion h
      · rw [hfe] at h; exact FetchOutcome.noConfusion h
      · cases hint : env.interrupt with
        | none => rw [hint] at h; exact absurd rfl h
        | some ip =>
          simp only [assess_dataset_url, hfe, hint]
          exact Or.inr ⟨env.errMsg.take 100, rfl⟩

/-- Witness for C9 at a timed-out fetch. -/
theorem claim9_witness :
    isErrorMarker (assess_dataset_url "https://example.com/x" "10.1/d"
      ⟨.timeout, [], [], [], "", "", none, ""⟩).accessibility :=
  (claim9_total_record "https://example.com/x" "10.1/d"
    ⟨.timeout, [], [], [], "", "", none, ""⟩).2 (Or.inl rfl)

/-- C10: every assessment displays at most ten file names and at most
ten formats, and on a completed assessment the displayed lists are
exactly the first ten of the ascending-sorted extracted sets
(entries beyond the limit are silently dropped). -/
theorem claim10_display_truncation (url pd : String) (env : AssessEnv) :
    ∃ l1 l2 : List String,
      (assess_dataset_url url pd env).file_name = pyJoin ", " l1 ∧
      l1.length ≤ 10 ∧
      (assess_dataset_url url pd env).file_formats = pyJoin ", " l2 ∧
      l2.length ≤ 10 ∧
      (∀ pt, env.fetch = FetchOutcome.ok pt → env.interrupt = none →
        l1 = displayedFiles url pd pt env ∧ l2 = displayedFormats url pd pt env) := by
  cases hfe : env.fetch with
  | timeout =>
    refine ⟨[], [], ?_, by simp, ?_, by simp, ?_⟩
    · simp only [assess_dataset_url, hfe]; rfl
    · simp only [assess_dataset_url, hfe]; rfl
    · intro pt h1 _; exact FetchOutcome.noConfusion h1
  | reqError m =>
    refine ⟨[], [], ?_, by simp, ?_, by simp, ?_⟩
    · simp only [assess_dataset_url, hfe]; rfl
    · simp only [assess_dataset_url, hfe]; rfl
    · intro pt h1 _; exact FetchOutcome.noConfusion h1
  | ok pt0 =>
    cases hint : env.interrupt with
    | none =>
      refine ⟨displayedFiles url pd pt0 env, displayedFormats url pd pt0 env,
        ?_, displayedFiles_length_le url pd pt0 env, ?_,
        displayedFormats_length_le url pd pt0 env, ?_⟩
      · simp only [assess_dataset_url, hfe, hint]; rw [run6_eq]
      · simp only [assess_dataset_url, hfe, hint]; rw [run6_eq]
      · intro pt h1 _
        injection h1 with h1
        subst h1
        exact ⟨rfl, rfl⟩
    | some ip =>
      cases ip with
      | s1 =>
        refine ⟨[], [], ?_, by simp, ?_, by simp,
          fun pt _ h2 => Option.noConfusion h2⟩
        · simp only [assess_dataset_url, hfe, hint, InterruptAt.stepsDone, run0_eq]; rfl
        · simp only [assess_dataset_url, hfe, hint, InterruptAt.stepsDone, run0_eq]; rfl
      | s2 =>
        refine ⟨[], [], ?_, by simp, ?_, by simp,
          fun pt _ h2 => Option.noConfusion h2⟩
        · simp only [assess_dataset_url, hfe, hint, InterruptAt.stepsDone]
          rw [run1_eq]
          rfl
        · simp only [assess_dataset_url, hfe, hint, InterruptAt.stepsDone]
          rw [run1_eq]
          rfl
      | s3 =>
        refine ⟨if pyJoin ", " ((sortedSet (collectedFilenames url env)).take 10) ≠ ""
            then (sortedSet (collectedFilenames url env)).take 10 else [], [],
          ?_, ?_, ?_, by simp, fun pt _ h2 => Option.noConfusion h2⟩
        · simp only [assess_dataset_url, hfe, hint, InterruptAt.stepsDone]
          rw [run2_eq]
          show fnameAfterStep2 url env = _
          rw [fnameAfterStep2_eq_join]
          by_cases h : pyJoin ", " ((sortedSet (collectedFilenames url env)).take 10) ≠ ""
          · simp [h]
          · simp only [ne_eq, not_not] at h
            simp [h, pyJoin]
        · split_ifs <;> simp [List.length_take]
        · simp only [assess_dataset_url, hfe, hint, InterruptAt.stepsDone]
          rw [run2_eq]
          rfl
      | s4 =>
        refine ⟨displayedFiles url pd pt0 env, [],
          ?_, displayedFiles_length_le url pd pt0 env, ?_, by simp,
          fun pt _ h2 => Option.noConfusion h2⟩
        · simp only [assess_dataset_url, hfe, hint, InterruptAt.stepsDone]
          rw [run3_eq]
        · simp only [assess_dataset_url, hfe, hint, InterruptAt.stepsDone]
          rw [run3_eq]
          rfl
      | s5 =>
        refine ⟨displayedFiles url pd pt0 env, displayedFormats url pd pt0 env,
          ?_, displayedFiles_length_le url pd pt0 env, ?_,
          displayedFormats_length_le url pd pt0 env,
          fun pt _ h2 => Option.noConfusion h2⟩
        · simp only [assess_dataset_url, hfe, hint, InterruptAt.stepsDone]
          rw [run4_eq]
        · simp only [assess_dataset_url, hfe, hint, InterruptAt.stepsDone]
          rw [run4_eq]
      | s6 =>
        refine ⟨displayedFiles url pd pt0 env, displayedFormats url pd pt0 env,
          ?_, displayedFiles_length_le url pd pt0 env, ?_,
          displayedFormats_length_le url pd pt0 env,
          fun pt _ h2 => Option.noConfusion h2⟩
        · simp only [assess_dataset_url, hfe, hint, InterruptAt.stepsDone]
          rw [run5_eq]
        · simp only [assess_dataset_url, hfe, hint, InterruptAt.stepsDone]
          rw [run5_eq]

/-- Witness for C10 at a concrete assessment with twelve extracted
file names. -/
theorem claim10_witness :
    ∃ l1 l2 : List String,
      (assess_dataset_url "https://zenodo.org/r/1" "10.1000/p"
        ⟨.ok "text", [],
          ["a.csv", "b.csv", "c.csv", "d.csv", "e.csv", "f.csv", "g.csv",
            "h.csv", "i.csv", "j.csv", "k.csv", "l.csv"],
          ["CSV"], "", "", none, ""⟩).file_name = pyJoin ", " l1 ∧
      l1.length ≤ 10 ∧
      (assess_dataset_url "https://zenodo.org/r/1" "10.1000/p"
        ⟨.ok "text", [],
          ["a.csv", "b.csv", "c.csv", "d.csv", "e.csv", "f.csv", "g.csv",
            "h.csv", "i.csv", "j.csv", "k.csv", "l.csv"],
          ["CSV"], "", "", none, ""⟩).file_formats = pyJoin ", " l2 ∧
      l2.length ≤ 10 ∧
      (∀ pt, (FetchOutcome.ok "text" : FetchOutcome) = FetchOutcome.ok pt →
        (none : Option InterruptAt) = none →
        l1 = displayedFiles "https://zenodo.org/r/1" "10.1000/p" pt
          ⟨.ok "text", [],
            ["a.csv", "b.csv", "c.csv", "d.csv", "e.csv", "f.csv", "g.csv",
              "h.csv", "i.csv", "j.csv", "k.csv", "l.csv"],
            ["CSV"], "", "", none, ""⟩ ∧
        l2 = displayedFormats "https://zenodo.org/r/1" "10.1000/p" pt
          ⟨.ok "text", [],
            ["a.csv", "b.csv", "c.csv", "d.csv", "e.csv", "f.csv", "g.csv",
              "h.csv", "i.csv", "j.csv", "k.csv", "l.csv"],
            ["CSV"], "", "", none, ""⟩) :=
  claim10_display_truncation "https://zenodo.org/r/1" "10.1000/p"
    ⟨.ok "text", [],
      ["a.csv", "b.csv", "c.csv", "d.csv", "e.csv", "f.csv", "g.csv",
        "h.csv", "i.csv", "j.csv", "k.csv", "l.csv"],
      ["CSV"], "", "", none, ""⟩
